import Mathlib

/-!
Shallow embedding of the niflheim event system (`src/base/events.py`) and
effect system (`src/systems/effects/effects.py`).

Python dictionaries (and `OrderedDict`) are modelled as insertion-ordered
association lists with unique keys: `dictSet` updates an existing key in
place and otherwise appends at the end, exactly as Python dict assignment
does.  Python exceptions are modelled with an explicit `PyError` value;
where Python mutates state before raising, the operation returns the
mutated state together with an optional error.
-/

/-- Membership test `k in d` on a Python dict modelled as an assoc list. -/
def dictContains {α : Type} : List (String × α) → String → Bool
  | [], _ => false
  | p :: rest, k => p.1 == k || dictContains rest k

/-- Lookup `d[k]` (as an `Option`) on a Python dict modelled as an assoc list. -/
def dictGet {α : Type} : List (String × α) → String → Option α
  | [], _ => none
  | p :: rest, k => if p.1 == k then some p.2 else dictGet rest k

/-- Assignment `d[k] = v` on a Python dict modelled as an assoc list:
update in place if the key exists, else append at the end. -/
def dictSet {α : Type} : List (String × α) → String → α → List (String × α)
  | [], k, v => [(k, v)]
  | p :: rest, k, v => if p.1 == k then (k, v) :: rest else p :: dictSet rest k v

/-- Python runtime values that appear as event data / listener owners here:
`None`, opaque objects identified by a numeral, and strings. -/
inductive PyVal
  | pynone
  | obj (id : Nat)
  | str (s : String)
deriving DecidableEq, Repr

/-- Python return values of `EventListener.add_event_listener`: a bare
`return` yields `None`, the duplicate branch yields `False`. -/
inductive PyRet
  | pynone
  | pybool (b : Bool)
deriving DecidableEq, Repr

/-- Python truthiness of the return values above: `bool(None) = False`,
`bool(b) = b`. -/
def pyTruthy : PyRet → Bool
  | .pynone => false
  | .pybool b => b

/-- Python exceptions raised by the embedded code paths. -/
inductive PyError
  | attributeError (attr : String)
  | indexError
  | keyError
  | eventException (msg : String)
deriving DecidableEq, Repr

/-- An `Event` namedtuple: `Event = namedtuple('Event', ['type', 'data'])`.
The namedtuple fields cannot be reassigned, but `data` is a mutable dict. -/
structure PyEvent where
  type : String
  data : List (String × PyVal)
deriving DecidableEq, Repr

/-- `EventFactory.create(etype, **data)`: uppercases the type and wraps the
keyword arguments as the event's data dict. -/
def EventFactory.create (etype : String) (data : List (String × PyVal)) : PyEvent :=
  ⟨etype.toUpper, data⟩

/-- State of an `EventListener`: its `owner`, its set of publisher
back-references (publishers identified by numerals), and its `listeners`
dict mapping event types to handlers (handlers identified by numerals). -/
structure ListenerState where
  owner : PyVal
  publishers : List Nat
  listeners : List (String × Nat)
deriving DecidableEq, Repr

/-- Observable outcome of one `on_notify` call: the event object after the
call (its `data` dict may have been mutated in place), the handlers fired
together with the data dict they were passed, and the `(subscriber, event)`
deliveries the call forwarded to subscribers. -/
structure Delivery where
  event : PyEvent
  fired : List (Nat × List (String × PyVal))
  forwarded : List (Nat × PyEvent)
deriving DecidableEq, Repr

/-- `EventListener.on_notify(event)`: uppercases the event type, injects
`self.owner` under key `"self"` into `event.data` when that key is absent
(mutating the event's data dict in place), then fires the handler bound to
the uppercased type, if any.  It never touches subscribers. -/
def listenerOnNotify (t : ListenerState) (e : PyEvent) : Delivery :=
  let query := e.type.toUpper
  let e1 := if dictContains e.data "self" then e else ⟨e.type, dictSet e.data "self" t.owner⟩
  match dictGet t.listeners query with
  | some hid => ⟨e1, [(hid, e1.data)], []⟩
  | none => ⟨e1, [], []⟩

/-- `EventListener.add_event_listener(etype, func)`: returns `False` when a
handler is already bound to `etype` (no overwrite), else binds `func` and
falls off the end of the function, returning `None`. -/
def addEventListener (t : ListenerState) (etype : String) (func : Nat) :
    ListenerState × PyRet :=
  if dictContains t.listeners etype then (t, .pybool false)
  else ({ t with listeners := dictSet t.listeners etype func }, .pynone)

/-- The attributes defined on class `EventListener` (methods and the
instance attributes set in `__init__`), used to model Python attribute
lookup on a subscriber.  Note there is no `add_event_publisher` and no
`remove_event_publisher`: the class defines `add_publisher` and
`remove_publisher` instead. -/
def eventListenerAttrs : List String :=
  ["owner", "publishers", "listeners", "on_notify", "on_destroy",
   "add_event_listener", "on", "remove_event_listener", "off",
   "add_publisher", "remove_publisher", "all"]

/-- Joint state of one publisher `P` and one `EventListener` subscriber `L`:
whether `L` is in `P.subscribers` and whether `P` is in `L.publishers`. -/
structure PLState where
  lInSubscribers : Bool
  pInPublishers : Bool
deriving DecidableEq, Repr

/-- `EventPublisher.add_subscriber(subscriber)`: first `self.subscribers.add
(subscriber)` mutates the subscriber set, then `subscriber.add_event_publisher
(self)` performs an attribute lookup on the listener, which raises
`AttributeError` when the attribute does not exist on `EventListener`. -/
def addSubscriber (s : PLState) : PLState × Option PyError :=
  let s1 : PLState := ⟨true, s.pInPublishers⟩
  if eventListenerAttrs.contains "add_event_publisher" then
    (⟨s1.lInSubscribers, true⟩, none)
  else
    (s1, some (.attributeError "add_event_publisher"))

/-- `EventPublisher.remove_subscriber(subscriber)`: `self.subscribers.remove
(subscriber)` raises `KeyError` when absent; otherwise the set is mutated and
then `subscriber.remove_event_publisher(self)` performs an attribute lookup
that raises `AttributeError` when the attribute does not exist. -/
def removeSubscriber (s : PLState) : PLState × Option PyError :=
  if s.lInSubscribers then
    let s1 : PLState := ⟨false, s.pInPublishers⟩
    if eventListenerAttrs.contains "remove_event_publisher" then
      (⟨s1.lInSubscribers, false⟩, none)
    else
      (s1, some (.attributeError "remove_event_publisher"))
  else
    (s, some .keyError)

/-- State of an `EventTopic`: `__init__` stores the name and then runs the
`EventListener` initializer (with `owner=None`) and the `EventPublisher`
initializer, so a topic carries a listener state plus a subscriber set. -/
structure TopicState where
  name : String
  listener : ListenerState
  subscribers : List Nat
deriving DecidableEq, Repr

/-- `EventTopic(name)`: name set, owner `None`, empty publishers, empty
handler dict, empty subscriber set. -/
def mkTopic (n : String) : TopicState :=
  ⟨n, ⟨.pynone, [], []⟩, []⟩

/-- Delivery of an event to a topic via `on_notify`: `EventTopic` defines no
override, so Python method resolution finds `EventListener.on_notify`, which
runs on the topic's inherited listener state and ignores its subscribers. -/
def topicOnNotify (t : TopicState) (e : PyEvent) : Delivery :=
  listenerOnNotify t.listener e

/-- Stated from the specification's words, for comparison with
`topicOnNotify`: the spec says a topic's `on_notify(event)` does not consult
a handler mapping and rebroadcasts the event unchanged to every current
subscriber of the topic, and to no one else. -/
def specTopicOnNotify (t : TopicState) (e : PyEvent) : Delivery :=
  ⟨e, [], t.subscribers.map (fun s => (s, e))⟩

/-- State of an `EventStream`: its `topics` dict mapping names to topics. -/
structure EventStreamState where
  topics : List (String × TopicState)
deriving DecidableEq, Repr

/-- `EventStream.create(topic)`: raises `EventException` when the name is
already registered (before any mutation), else constructs a new `EventTopic`,
inserts it under its name and returns it.  The exception message is the
literal string from the source (the `raise` uses a non-f-string). -/
def streamCreate (s : EventStreamState) (n : String) :
    EventStreamState × Except PyError TopicState :=
  if dictContains s.topics n then
    (s, .error (.eventException "EventTopic already exists: {topic}"))
  else
    let t := mkTopic n
    (⟨dictSet s.topics t.name t⟩, .ok t)

/-- `EventStream.get(topic)`: the topic registered under the name, else `None`. -/
def streamGet (s : EventStreamState) (n : String) : Option TopicState :=
  dictGet s.topics n

/-- An `Effect`: the plain data fields set by `Effect.__init__`, in the
constructor's order (`metadata` and the event-listener plumbing are omitted;
the source's field `stacks` is spelled `stackCount` here because `stacks` is
a reserved token; the handler logic reads only `type`, `unique`,
`refreshable`, `stackable`). -/
structure Effect where
  name : String
  type : String
  trait : String
  power : Int
  refreshable : Bool
  stackable : Bool
  stackCount : Nat
  unique : Bool
  interval : Nat
  ticks : Nat
deriving DecidableEq, Repr

/-- A `collections.deque`, possibly bounded: `deque([], 1)` has `maxlen 1`,
`deque()` is unbounded. -/
structure EDeque where
  elems : List Effect
  maxlen : Option Nat
deriving DecidableEq, Repr

/-- `deque.appendleft(e)`: insert at the left end; on a bounded deque the
excess element is discarded from the right end. -/
def EDeque.appendleft (d : EDeque) (e : Effect) : EDeque :=
  match d.maxlen with
  | none => ⟨e :: d.elems, none⟩
  | some m => ⟨(e :: d.elems).take m, some m⟩

/-- `deque.pop()`: remove and return the rightmost element; `none` models
the `IndexError` raised on an empty deque. -/
def EDeque.popRight (d : EDeque) : Option (Effect × EDeque) :=
  match d.elems.getLast? with
  | none => none
  | some x => some (x, ⟨d.elems.dropLast, d.maxlen⟩)

/-- State of an `EffectHandler`: its `_dict` (an `OrderedDict` indexing
effect deques by effect type) together with the trace of lifecycle events it
has emitted, each recorded as `(status, effect)` in emission order. -/
structure EffectHandler where
  dict : List (String × EDeque)
  log : List (String × Effect)
deriving DecidableEq, Repr

/-- A freshly constructed handler: empty store, nothing emitted yet. -/
def EffectHandler.empty : EffectHandler := ⟨[], []⟩

/-- `EffectHandler.emit_to(effect, status, data)`: builds a lifecycle event
for `status` and delivers it to `effect.events.on_notify`; modelled as
appending `(status, effect)` to the handler's emission trace. -/
def EffectHandler.emitTo (h : EffectHandler) (e : Effect) (status : String) :
    EffectHandler :=
  { h with log := h.log ++ [(status, e)] }

/-- Return value of `EffectHandler.add`: falling off the end returns `None`
(`normal`), the early return yields the tagged tuple
`(False, "UNIQUE_NO_REFRESH")`. -/
inductive AddResult
  | normal
  | uniqueNoRefresh
deriving DecidableEq, Repr

/-- `self._dict[idx].appendleft(effect)`: appendleft on the bucket stored at
`idx` (all call sites run with `idx` present in the dict). -/
def EffectHandler.bucketAppendleft (h : EffectHandler) (idx : String) (e : Effect) :
    EffectHandler :=
  match dictGet h.dict idx with
  | none => h
  | some d => { h with dict := dictSet h.dict idx (d.appendleft e) }

/-- The two statements at the bottom of `EffectHandler.add`, reached by every
path that does not return early: `self._dict[idx].appendleft(effect)` and
`self.emit_to(effect, "APPLIED", data)`. -/
def EffectHandler.addFinish (h : EffectHandler) (idx : String) (e : Effect) :
    EffectHandler × AddResult :=
  ((h.bucketAppendleft idx e).emitTo e "APPLIED", .normal)

/-- `EffectHandler.add(effect, **data)`: creates the bucket for
`effect.type` when absent (bounded to 1 for unique effects); then — since
the key is now always present — the `if idx in self._dict` block runs: for a
unique refreshable effect it appendlefts and emits `REFRESHED` before
falling through to the final appendleft and `APPLIED`; for a unique
non-refreshable effect it returns `(False, "UNIQUE_NO_REFRESH")`; for
non-unique effects the block does nothing and control falls through to the
final appendleft and `APPLIED` (the `stackable` branch is `pass`). -/
def EffectHandler.add (h : EffectHandler) (e : Effect) : EffectHandler × AddResult :=
  let idx := e.type
  let h1 :=
    if dictContains h.dict idx then h
    else if e.unique then { h with dict := dictSet h.dict idx ⟨[], some 1⟩ }
    else { h with dict := dictSet h.dict idx ⟨[], none⟩ }
  if dictContains h1.dict idx && e.unique then
    if e.refreshable then
      ((h1.bucketAppendleft idx e).emitTo e "REFRESHED").addFinish idx e
    else
      (h1, .uniqueNoRefresh)
  else
    h1.addFinish idx e

/-- `EffectHandler.remove(effect, **data)`: when `effect.type` is a key of
`_dict`, `self._dict[idx].pop()` pops the rightmost element (raising
`IndexError` on an empty deque) and then `REMOVED` is emitted for the passed
effect; when the key is absent nothing happens. -/
def EffectHandler.remove (h : EffectHandler) (e : Effect) : Except PyError EffectHandler :=
  let idx := e.type
  match dictGet h.dict idx with
  | none => .ok h
  | some d =>
    match d.popRight with
    | none => .error .indexError
    | some (_, d2) =>
      .ok (EffectHandler.emitTo ⟨dictSet h.dict idx d2, h.log⟩ e "REMOVED")

/-- A unique, non-refreshable effect (the spec's poison example). -/
def poisonEffect : Effect :=
  ⟨"Poison", "poison", "health", 5, false, false, 1, true, 0, 1⟩

/-- A second effect of the same unique, non-refreshable type. -/
def poisonEffect2 : Effect :=
  ⟨"Poison II", "poison", "health", 8, false, false, 1, true, 0, 1⟩

/-- A unique, refreshable effect. -/
def regenEffect : Effect :=
  ⟨"Regen", "regen", "health", 3, true, false, 1, true, 0, 1⟩

/-- A second effect of the same unique, refreshable type. -/
def regenEffect2 : Effect :=
  ⟨"Regen II", "regen", "health", 6, true, false, 1, true, 0, 1⟩

/-- A non-unique effect. -/
def burnEffect : Effect :=
  ⟨"Burn", "burn", "health", 2, false, false, 1, false, 0, 1⟩

/-- A second non-unique effect of the same type. -/
def burnEffect2 : Effect :=
  ⟨"Burn II", "burn", "health", 4, false, false, 1, false, 0, 1⟩

/-! Helper lemmas about the dict model. -/

theorem dictGet_dictSet_self {α : Type} (d : List (String × α)) (k : String) (v : α) :
    dictGet (dictSet d k v) k = some v := by
  induction d with
  | nil => simp [dictSet, dictGet]
  | cons p rest ih =>
    by_cases h : p.1 = k
    · simp [dictSet, dictGet, h]
    · simp [dictSet, dictGet, h, ih]

theorem dictGet_dictSet_ne {α : Type} (d : List (String × α)) (k k' : String) (v : α)
    (h : k' ≠ k) : dictGet (dictSet d k v) k' = dictGet d k' := by
  induction d with
  | nil => simp [dictSet, dictGet, Ne.symm h]
  | cons p rest ih =>
    by_cases hp : p.1 = k
    · simp [dictSet, dictGet, hp, Ne.symm h]
    · simp [dictSet, dictGet, hp, ih]

theorem dictContains_dictSet_self {α : Type} (d : List (String × α)) (k : String) (v : α) :
    dictContains (dictSet d k v) k = true := by
  induction d with
  | nil => simp [dictSet, dictContains]
  | cons p rest ih =>
    by_cases h : p.1 = k
    · simp [dictSet, dictContains, h]
    · simp [dictSet, dictContains, h, ih]

theorem dictContains_of_dictGet {α : Type} {d : List (String × α)} {k : String} {v : α}
    (h : dictGet d k = some v) : dictContains d k = true := by
  induction d with
  | nil => simp [dictGet] at h
  | cons p rest ih =>
    by_cases hp : p.1 = k
    · simp [dictContains, hp]
    · simp [dictGet, hp] at h
      simp [dictContains, hp, ih h]

/-- C1: for a fresh `EffectHandler`, the very first `add` of a unique,
non-refreshable effect does not succeed: the membership check that was meant
to detect a pre-existing occupant is satisfied by the bucket the call itself
just created, so `add` returns `(False, "UNIQUE_NO_REFRESH")`, emits no
`APPLIED` event, and leaves the freshly created capacity-1 bucket empty —
contradicting the claim that the first add succeeds with one `APPLIED`. -/
theorem unique_first_add_rejected :
    EffectHandler.add EffectHandler.empty poisonEffect =
      (⟨[("poison", ⟨[], some 1⟩)], []⟩, AddResult.uniqueNoRefresh) := by
  rfl

/-- C2: delivering an event to a topic with one subscriber (id 7) and no
registered handlers via `on_notify` forwards it to nobody and mutates the
event's data dict, because `EventTopic` inherits `EventListener.on_notify`
unchanged; the behavior the claim describes (`specTopicOnNotify`) would have
forwarded the unchanged event to subscriber 7. -/
theorem topic_on_notify_drops_event :
    topicOnNotify { mkTopic "combat" with subscribers := [7] } ⟨"DAMAGE", []⟩ =
      ⟨⟨"DAMAGE", [("self", PyVal.pynone)]⟩, [], []⟩ ∧
    specTopicOnNotify { mkTopic "combat" with subscribers := [7] } ⟨"DAMAGE", []⟩ =
      ⟨⟨"DAMAGE", []⟩, [], [(7, ⟨"DAMAGE", []⟩)]⟩ := by
  exact ⟨rfl, rfl⟩

/-- C3: subscribing a fresh `EventListener` to a publisher adds it to the
publisher's subscriber set and then raises `AttributeError` (the code calls
`subscriber.add_event_publisher`, a method `EventListener` does not define),
so the publisher back-reference is never set; unsubscribing likewise removes
the subscriber and then raises `AttributeError` on
`subscriber.remove_event_publisher`, leaving the back-reference in place. -/
theorem subscription_attribute_error :
    addSubscriber ⟨false, false⟩ =
      (⟨true, false⟩, some (PyError.attributeError "add_event_publisher")) ∧
    removeSubscriber ⟨true, true⟩ =
      (⟨false, true⟩, some (PyError.attributeError "remove_event_publisher")) := by
  exact ⟨rfl, rfl⟩

/-- C4 counterexample: after a first add of the unique refreshable
`regenEffect`, adding `regenEffect2` of the same type does replace the
occupant, but the emission trace of that second add is
`REFRESHED` followed by `APPLIED` — an `APPLIED` event is emitted for that
add, contradicting the claim that only `REFRESHED` is emitted. -/
theorem refresh_add_emits_applied :
    (EffectHandler.empty.add regenEffect).1.add regenEffect2 =
      (⟨[("regen", ⟨[regenEffect2], some 1⟩)],
        [("REFRESHED", regenEffect), ("APPLIED", regenEffect),
         ("REFRESHED", regenEffect2), ("APPLIED", regenEffect2)]⟩,
       AddResult.normal) ∧
    ("APPLIED", regenEffect2) ∈ ((EffectHandler.empty.add regenEffect).1.add regenEffect2).1.log := by
  exact ⟨rfl, by decide⟩

/-- C5 counterexample: with two non-unique effects of type `"burn"` applied
in order `burnEffect` then `burnEffect2` (so `burnEffect2` is the
most-recently-applied, sitting at the front of the bucket), `remove` pops
`burnEffect` — the least-recently-applied — and the most-recent
`burnEffect2` is what remains, contradicting the claimed LIFO discipline. -/
theorem remove_pops_oldest :
    ((EffectHandler.empty.add burnEffect).1.add burnEffect2).1.remove burnEffect =
      Except.ok ⟨[("burn", ⟨[burnEffect2], none⟩)],
        [("APPLIED", burnEffect), ("APPLIED", burnEffect2), ("REMOVED", burnEffect)]⟩ ∧
    burnEffect2 ≠ burnEffect := by
  exact ⟨rfl, by decide⟩

/-- C6 counterexample: a reachable handler state has the `"poison"` key
present with an empty bucket (the first add of a unique non-refreshable
effect creates the bucket and then returns early without filling it);
calling `remove` there is not a silent no-op — `deque.pop()` on the empty
bucket raises `IndexError`. -/
theorem remove_empty_bucket_raises :
    (EffectHandler.empty.add poisonEffect).1.remove poisonEffect =
      Except.error PyError.indexError ∧
    dictContains (EffectHandler.empty.add poisonEffect).1.dict "poison" = true := by
  exact ⟨rfl, rfl⟩

/-- C7 counterexample: registering the topic name `"combat"` twice makes the
second `create` raise `EventException` (with the source's unformatted
message) rather than return false; the registry is left unmutated. -/
theorem duplicate_topic_raises :
    streamCreate (streamCreate ⟨[]⟩ "combat").1 "combat" =
      ((streamCreate ⟨[]⟩ "combat").1,
       Except.error (PyError.eventException "EventTopic already exists: {topic}")) := by
  rfl

/-- C9 counterexample: delivering an event whose data dict lacks the key
`"self"` to a listener owned by object 1 mutates the event's data dict in
place, inserting `"self" -> obj 1`; the data mapping after delivery differs
from the one the event was constructed with. -/
theorem on_notify_mutates_event :
    (listenerOnNotify ⟨PyVal.obj 1, [], []⟩ ⟨"TICK", []⟩).event =
      ⟨"TICK", [("self", PyVal.obj 1)]⟩ ∧
    (⟨"TICK", [("self", PyVal.obj 1)]⟩ : PyEvent) ≠ ⟨"TICK", []⟩ := by
  exact ⟨rfl, by decide⟩

/-- C4 (amended): for every handler whose bucket for a unique, refreshable
effect's type already exists (capacity 1), a further `add` of that type
replaces the bucket's occupant — the new effect becomes the sole occupant —
and emits a `REFRESHED` lifecycle event followed by an `APPLIED` lifecycle
event for that add (the refresh branch falls through to the final
appendleft-and-`APPLIED` statements). -/
theorem refresh_add_replaces_and_emits (h : EffectHandler) (e : Effect) (d : EDeque)
    (hu : e.unique = true) (hr : e.refreshable = true)
    (hd : dictGet h.dict e.type = some d) (hm : d.maxlen = some 1) :
    (h.add e).2 = AddResult.normal ∧
    dictGet (h.add e).1.dict e.type = some ⟨[e], some 1⟩ ∧
    (h.add e).1.log = h.log ++ [("REFRESHED", e), ("APPLIED", e)] := by
  have hc : dictContains h.dict e.type = true := dictContains_of_dictGet hd
  simp [EffectHandler.add, EffectHandler.bucketAppendleft, EffectHandler.addFinish,
        EffectHandler.emitTo, EDeque.appendleft, hu, hr, hc, hd, hm,
        dictGet_dictSet_self]

/-- Witness for `refresh_add_replaces_and_emits` at a concrete second add of
a unique refreshable effect. -/
theorem refresh_add_replaces_and_emits_witness :
    ((EffectHandler.empty.add regenEffect).1.add regenEffect2).2 = AddResult.normal ∧
    dictGet ((EffectHandler.empty.add regenEffect).1.add regenEffect2).1.dict
      regenEffect2.type = some ⟨[regenEffect2], some 1⟩ :=
  ⟨(refresh_add_replaces_and_emits (EffectHandler.empty.add regenEffect).1 regenEffect2
      ⟨[regenEffect], some 1⟩ rfl rfl rfl rfl).1,
   (refresh_add_replaces_and_emits (EffectHandler.empty.add regenEffect).1 regenEffect2
      ⟨[regenEffect], some 1⟩ rfl rfl rfl rfl).2.1⟩

/-- C5 (amended): for every handler whose bucket for `effect.type` is
non-empty, `remove(effect)` pops the least-recently-applied effect — the one
at the back of the bucket, since `add` inserts at the front and `pop` takes
from the right (FIFO discipline) — and emits exactly one `REMOVED`
lifecycle event. -/
theorem remove_pops_least_recent (h : EffectHandler) (e : Effect) (d : EDeque)
    (l : List Effect) (x : Effect)
    (hd : dictGet h.dict e.type = some d) (he : d.elems = l ++ [x]) :
    h.remove e =
      Except.ok ⟨dictSet h.dict e.type ⟨l, d.maxlen⟩, h.log ++ [("REMOVED", e)]⟩ := by
  simp [EffectHandler.remove, EDeque.popRight, EffectHandler.emitTo, hd, he]

/-- Witness for `remove_pops_least_recent` on a bucket holding two burn
effects. -/
theorem remove_pops_least_recent_witness :
    ((EffectHandler.empty.add burnEffect).1.add burnEffect2).1.remove burnEffect =
      Except.ok ⟨dictSet ((EffectHandler.empty.add burnEffect).1.add burnEffect2).1.dict
          burnEffect.type ⟨[burnEffect2], none⟩,
        ((EffectHandler.empty.add burnEffect).1.add burnEffect2).1.log ++
          [("REMOVED", burnEffect)]⟩ :=
  remove_pops_least_recent ((EffectHandler.empty.add burnEffect).1.add burnEffect2).1
    burnEffect ⟨[burnEffect2, burnEffect], none⟩ [burnEffect2] burnEffect rfl rfl

/-- C6 (amended): `remove` for an effect type whose bucket is absent is a
silent no-op (no error, no event, store unchanged); but when the type's key
is present with an empty bucket, `remove` raises `IndexError` (the guard
checks key presence, not bucket emptiness) and emits no event. -/
theorem remove_missing_or_empty (h : EffectHandler) (e : Effect) :
    (dictGet h.dict e.type = none → h.remove e = Except.ok h) ∧
    (∀ d, dictGet h.dict e.type = some d → d.elems = [] →
      h.remove e = Except.error PyError.indexError) := by
  constructor
  · intro hn
    simp [EffectHandler.remove, hn]
  · intro d hd he
    simp [EffectHandler.remove, EDeque.popRight, hd, he]

/-- Witness for `remove_missing_or_empty`: an absent key is a no-op; the
reachable present-but-empty poison bucket raises `IndexError`. -/
theorem remove_missing_or_empty_witness :
    EffectHandler.empty.remove burnEffect = Except.ok EffectHandler.empty ∧
    (EffectHandler.empty.add poisonEffect).1.remove poisonEffect =
      Except.error PyError.indexError :=
  ⟨(remove_missing_or_empty EffectHandler.empty burnEffect).1 rfl,
   (remove_missing_or_empty (EffectHandler.empty.add poisonEffect).1 poisonEffect).2
      ⟨[], some 1⟩ rfl rfl⟩

/-- C7 (amended): adding a topic name already present in the stream raises
`EventException` (rather than returning false) and does not mutate the topic
registry; adding a fresh name inserts a new topic which is retrievable by
name, leaving every other name's binding unchanged. -/
theorem stream_create_raises_or_inserts (s : EventStreamState) (n : String) :
    (dictContains s.topics n = true →
      streamCreate s n =
        (s, Except.error (PyError.eventException "EventTopic already exists: {topic}"))) ∧
    (dictContains s.topics n = false →
      (streamCreate s n).2 = Except.ok (mkTopic n) ∧
      streamGet (streamCreate s n).1 n = some (mkTopic n) ∧
      ∀ m, m ≠ n → streamGet (streamCreate s n).1 m = streamGet s m) := by
  constructor
  · intro hc
    simp [streamCreate, hc]
  · intro hc
    refine ⟨by simp [streamCreate, hc], ?_, ?_⟩
    · simp [streamCreate, streamGet, hc, mkTopic, dictGet_dictSet_self]
    · intro m hm
      simp [streamCreate, streamGet, hc, mkTopic, dictGet_dictSet_ne _ _ _ _ hm]

/-- Witness for `stream_create_raises_or_inserts` on an empty stream. -/
theorem stream_create_raises_or_inserts_witness :
    (streamCreate ⟨[]⟩ "combat").2 = Except.ok (mkTopic "combat") ∧
    streamGet (streamCreate ⟨[]⟩ "combat").1 "combat" = some (mkTopic "combat") :=
  ⟨((stream_create_raises_or_inserts ⟨[]⟩ "combat").2 rfl).1,
   ((stream_create_raises_or_inserts ⟨[]⟩ "combat").2 rfl).2.1⟩

/-- C8: after a handler `f` is registered for an event type, a second
registration of any handler `g` for the same type is rejected by returning
`False` — no exception is raised, the listener state is unchanged by the
second call, and `f` remains bound to the type. -/
theorem second_registration_rejected (t : ListenerState) (etype : String) (f g : Nat)
    (hc : dictContains t.listeners etype = false) :
    addEventListener (addEventListener t etype f).1 etype g =
      ((addEventListener t etype f).1, PyRet.pybool false) ∧
    dictGet (addEventListener (addEventListener t etype f).1 etype g).1.listeners etype =
      some f := by
  have h1 : (addEventListener t etype f).1 =
      { t with listeners := dictSet t.listeners etype f } := by
    simp [addEventListener, hc]
  rw [h1]
  constructor <;>
    simp [addEventListener, dictContains_dictSet_self, dictGet_dictSet_self]

/-- Witness for `second_registration_rejected` at a concrete listener. -/
theorem second_registration_rejected_witness :
    addEventListener (addEventListener ⟨PyVal.obj 1, [], []⟩ "DEATH" 4).1 "DEATH" 9 =
      ((addEventListener ⟨PyVal.obj 1, [], []⟩ "DEATH" 4).1, PyRet.pybool false) ∧
    dictGet (addEventListener (addEventListener ⟨PyVal.obj 1, [], []⟩ "DEATH" 4).1
      "DEATH" 9).1.listeners "DEATH" = some 4 :=
  second_registration_rejected ⟨PyVal.obj 1, [], []⟩ "DEATH" 4 9 rfl

/-- C9 (amended): an event's `type` and its identity as a namedtuple are
never changed by delivery, and its data dict is untouched whenever it
already has a `"self"` key; but when `"self"` is absent, `on_notify` mutates
the event's data dict in place, binding `"self"` to the listener's owner —
every other key's binding is preserved. -/
theorem on_notify_injects_self_only (t : ListenerState) (e : PyEvent) :
    (listenerOnNotify t e).event.type = e.type ∧
    (dictContains e.data "self" = true → (listenerOnNotify t e).event = e) ∧
    (dictContains e.data "self" = false →
      dictGet (listenerOnNotify t e).event.data "self" = some t.owner ∧
      ∀ k, k ≠ "self" → dictGet (listenerOnNotify t e).event.data k = dictGet e.data k) := by
  cases hq : dictGet t.listeners e.type.toUpper <;>
    cases hc : dictContains e.data "self" <;>
      simp [listenerOnNotify, hq, hc, dictGet_dictSet_self] <;>
        exact fun k hk => dictGet_dictSet_ne _ _ _ _ hk

/-- Witness for `on_notify_injects_self_only` at a concrete listener and an
event without a `"self"` key. -/
theorem on_notify_injects_self_only_witness :
    dictGet (listenerOnNotify ⟨PyVal.obj 1, [], []⟩ ⟨"TICK", []⟩).event.data "self" =
      some (PyVal.obj 1) :=
  ((on_notify_injects_self_only ⟨PyVal.obj 1, [], []⟩ ⟨"TICK", []⟩).2.2 rfl).1

/-- C10: `add_event_listener` returns `None` on success and `False` only in
the duplicate-type case, so interpreted as a boolean its return value is
falsy in both cases and cannot serve as a truthy success indicator. -/
theorem add_event_listener_returns_falsy (t : ListenerState) (etype : String) (f : Nat) :
    pyTruthy (addEventListener t etype f).2 = false ∧
    (dictContains t.listeners etype = false →
      (addEventListener t etype f).2 = PyRet.pynone) ∧
    (dictContains t.listeners etype = true →
      (addEventListener t etype f).2 = PyRet.pybool false) := by
  cases hc : dictContains t.listeners etype <;> simp [addEventListener, pyTruthy, hc]

/-- Witness for `add_event_listener_returns_falsy` at a concrete successful
registration. -/
theorem add_event_listener_returns_falsy_witness :
    pyTruthy (addEventListener ⟨PyVal.obj 1, [], []⟩ "DEATH" 4).2 = false ∧
    (addEventListener ⟨PyVal.obj 1, [], []⟩ "DEATH" 4).2 = PyRet.pynone :=
  ⟨(add_event_listener_returns_falsy ⟨PyVal.obj 1, [], []⟩ "DEATH" 4).1,
   (add_event_listener_returns_falsy ⟨PyVal.obj 1, [], []⟩ "DEATH" 4).2.1 rfl⟩
